import Mathlib

/-!
Shallow embedding of `src/student_processing.py`, a single-pass batch
transform: read a tabular file of student scores, compute per-student
statistics, write an augmented tabular file.

Modelling conventions:
- A Python dict representing one student is a `StudentDict` whose fields are
  `Option`-valued; a `none` field models an absent dict key, and a dict
  access `student['k']` on an absent key is a raised `KeyError`.
- Python `int` is `ℤ`; Python floats produced by the single true division
  `total / 3` are modelled as exact rationals `ℚ` (the division is the
  real-number division the code intends; no rounding is relevant to any
  property stated below).
- `sys.exit(1)` and uncaught exceptions are both modelled by `Except.error`
  with a string describing the diagnostic; diagnostics printed before a
  recoverable skip are not part of the returned value.
- A CSV file is a `List (List String)` of rows; the input file's header row
  is consumed (Python `next(csv_reader)`), an empty file raising
  `StopIteration` into the generic fatal handler.
-/

namespace StudentProcessing

/-- Value of a decimal digit string, as computed by Python's `int` on the
digits part: `none` when empty or containing a non-digit character. -/
def digitsVal (cs : List Char) : Option Nat :=
  if cs = [] then none
  else if cs.all (fun c => c.isDigit) then
    some (cs.foldl (fun acc c => 10 * acc + (c.toNat - 48)) 0)
  else none

/-- Modelled: Python's built-in `int(str)` used at lines 32-34 of
`read_student_data`: an optional sign followed by decimal digits parses to
an integer, anything else raises `ValueError` (here `none`). Surrounding
whitespace and underscore separators accepted by CPython are not modelled;
no claim depends on them. -/
def pyInt (s : String) : Option ℤ :=
  match s.data with
  | [] => none
  | '-' :: rest => (digitsVal rest).map (fun n => -(n : ℤ))
  | '+' :: rest => (digitsVal rest).map (fun n => (n : ℤ))
  | cs => (digitsVal cs).map (fun n => (n : ℤ))

/-- One student dict as built by `read_student_data` or handed to
`process_student_results`; `none` models an absent key. -/
structure StudentDict where
  name : Option String
  math : Option ℤ
  science : Option ℤ
  english : Option ℤ
deriving Repr, DecidableEq

/-- One row of the results list built by `process_student_results`
(lines 148-159). -/
structure StudentResult where
  name : String
  math : ℤ
  science : ℤ
  english : ℤ
  average : ℚ
  grade : String
  min_score : ℤ
  max_score : ℤ
  score_range : ℤ
  pass_fail : String
deriving Repr, DecidableEq

/-- `calculate_average` (lines 56-75): sums the three score keys and divides
by 3 with true division; a missing score key raises `KeyError`, caught in
the function, which then returns `None`. -/
def calculate_average (student : StudentDict) : Option ℚ :=
  match student.math, student.science, student.english with
  | some m, some s, some e => some (((m + s + e : ℤ) : ℚ) / 3)
  | _, _, _ => none

/-- `assign_grade` (lines 78-100): the if/elif threshold chain. -/
def assign_grade (score : ℚ) : String :=
  if 90 ≤ score then "A"
  else if 80 ≤ score then "B"
  else if 70 ≤ score then "C"
  else if 60 ≤ score then "D"
  else if 50 ≤ score then "E"
  else "F"

/-- `calculate_min_max_range` (lines 103-116): Python `min`/`max` over the
score list, raising on an empty list (`none` here). -/
def calculate_min_max_range (student_scores : List ℤ) : Option (ℤ × ℤ × ℤ) :=
  match student_scores.min?, student_scores.max? with
  | some mn, some mx => some (mn, mx, mx - mn)
  | _, _ => none

/-- Body of the `for student in students_data` loop of
`process_student_results` (lines 131-160). Line 133 builds
`[student['math'], student['science'], student['english']]` by direct key
access, so an absent score key raises `KeyError` HERE, before
`calculate_average`'s defensive handler is ever reached; line 149 likewise
accesses `student['name']` directly. `Except.error` models such an uncaught
exception; `Except.ok none` models the `average is None` branch appending
nothing. -/
def processOne (student : StudentDict) : Except String (Option StudentResult) :=
  match student.math with
  | none => Except.error "KeyError: math"
  | some m =>
  match student.science with
  | none => Except.error "KeyError: science"
  | some sc =>
  match student.english with
  | none => Except.error "KeyError: english"
  | some e =>
    match calculate_average student with
    | none => Except.ok none
    | some average =>
      let grade := assign_grade average
      match calculate_min_max_range [m, sc, e] with
      | none => Except.error "ValueError: empty sequence"
      | some (mn, mx, rg) =>
        let pass_fail :=
          if 50 ≤ average then "Congratulations, you passed!" else "Fail"
        match student.name with
        | none => Except.error "KeyError: name"
        | some nm =>
          Except.ok (some
            { name := nm, math := m, science := sc, english := e,
              average := average, grade := grade,
              min_score := mn, max_score := mx, score_range := rg,
              pass_fail := pass_fail })

/-- `process_student_results` (lines 119-162): the loop over the incoming
records, accumulating one result dict per record whose average is not
`None`; an uncaught exception from the loop body aborts the whole call. -/
def process_student_results : List StudentDict → Except String (List StudentResult)
  | [] => Except.ok []
  | s :: rest =>
    match processOne s with
    | Except.error e => Except.error e
    | Except.ok none => process_student_results rest
    | Except.ok (some r) =>
      (process_student_results rest).map (fun rs => r :: rs)

/-- Loop body of `read_student_data` over the data rows (lines 23-40): a row
with fewer than 4 fields is reported and skipped; otherwise the three score
fields are converted with `int`, a conversion failure printing a diagnostic
and calling `sys.exit(1)` (modelled by `Except.error`). -/
def read_rows : List (List String) → Except String (List StudentDict)
  | [] => Except.ok []
  | (r0 :: r1 :: r2 :: r3 :: _) :: rest =>
    match pyInt r1 with
    | none => Except.error "ValueError: invalid int for math"
    | some m =>
      match pyInt r2 with
      | none => Except.error "ValueError: invalid int for science"
      | some sc =>
        match pyInt r3 with
        | none => Except.error "ValueError: invalid int for english"
        | some e =>
          (read_rows rest).map
            (fun ds => ⟨some r0, some m, some sc, some e⟩ :: ds)
  | _ :: rest => read_rows rest

/-- `read_student_data` (lines 4-53) on an already-split CSV file: the first
row is the header consumed by `next(csv_reader)`; an empty file raises
`StopIteration`, caught by the generic fatal handler (exit 1). File-system
errors (`FileNotFoundError`, other I/O) are outside the embedded input. -/
def read_student_data : List (List String) → Except String (List StudentDict)
  | [] => Except.error "StopIteration"
  | _ :: rows => read_rows rows

/-- Header list defined at line 175 of `write_results_to_csv`. -/
def output_header : List String :=
  ["name", "math", "science", "english", "average", "grade",
   "min_score", "max_score", "score_range", "pass_fail"]

/-- The dict literal of lines 148-159 viewed as the association list that
`csv.DictWriter` receives, every value rendered to its cell text (`str` on
ints; the float average rendered abstractly via the rational's text form,
which no claim inspects). -/
def result_dict (r : StudentResult) : List (String × String) :=
  [("name", r.name), ("math", toString r.math),
   ("science", toString r.science), ("english", toString r.english),
   ("average", toString r.average), ("grade", r.grade),
   ("min_score", toString r.min_score), ("max_score", toString r.max_score),
   ("score_range", toString r.score_range), ("pass_fail", r.pass_fail)]

/-- `csv.DictWriter.writerow` with the given `fieldnames`: one cell per
field name, looked up in the row dict (every key is present at the call
site, so the default cell is unreachable). -/
def dict_row (fieldnames : List String) (d : List (String × String)) : List String :=
  fieldnames.map (fun f => (d.lookup f).getD "")

/-- `write_results_to_csv` (lines 165-185): with a non-empty results list,
the written file is the header row followed by one `DictWriter` row per
result; with an empty list, no file is created ("No results to write." is
printed instead), modelled by `none`. -/
def write_results_to_csv (results : List StudentResult) : Option (List (List String)) :=
  match results with
  | [] => none
  | _ =>
    some (output_header :: results.map (fun r => dict_row output_header (result_dict r)))

/-- The `__main__` block (lines 188-199) as a function from the input file's
rows to either a fatal exit (`Except.error`, status 1, no output file) or
the produced output file (`none` when no file is written). -/
def main_run (input : List (List String)) : Except String (Option (List (List String))) :=
  match read_student_data input with
  | Except.error e => Except.error e
  | Except.ok students =>
    match students with
    | [] => Except.ok none
    | _ =>
      match process_student_results students with
      | Except.error e => Except.error e
      | Except.ok results => Except.ok (write_results_to_csv results)

/-- Claim C1: `assign_grade` follows the inclusive lower-bound threshold
table: a score ≥ 90 yields "A", ≥ 80 yields "B", ≥ 70 yields "C",
≥ 60 yields "D", ≥ 50 yields "E", and any lower score yields "F". -/
theorem assign_grade_thresholds (score : ℚ) :
    (90 ≤ score → assign_grade score = "A") ∧
    (80 ≤ score → score < 90 → assign_grade score = "B") ∧
    (70 ≤ score → score < 80 → assign_grade score = "C") ∧
    (60 ≤ score → score < 70 → assign_grade score = "D") ∧
    (50 ≤ score → score < 60 → assign_grade score = "E") ∧
    (score < 50 → assign_grade score = "F") := by
  unfold assign_grade
  refine ⟨?_, ?_, ?_, ?_, ?_, ?_⟩ <;> intros <;> split_ifs <;>
    first | rfl | linarith

/-- Claim C1, boundary witnesses: 89 yields "B", 90 yields "A", 49 yields
"F", and 50 yields "E". -/
theorem assign_grade_thresholds_witness :
    assign_grade 89 = "B" ∧ assign_grade 90 = "A" ∧
    assign_grade 49 = "F" ∧ assign_grade 50 = "E" :=
  ⟨(assign_grade_thresholds 89).2.1 (by norm_num) (by norm_num),
   (assign_grade_thresholds 90).1 (by norm_num),
   (assign_grade_thresholds 49).2.2.2.2.2 (by norm_num),
   (assign_grade_thresholds 50).2.2.2.2.1 (by norm_num) (by norm_num)⟩

/-- Claim C2: on a record with the three integer scores present,
`calculate_average` returns exactly (math + science + english) / 3 under
true (real-number) division. -/
theorem calculate_average_exact (s : StudentDict) (m sc e : ℤ)
    (hm : s.math = some m) (hs : s.science = some sc) (he : s.english = some e) :
    calculate_average s = some (((m + sc + e : ℤ) : ℚ) / 3) := by
  unfold calculate_average
  rw [hm, hs, he]

/-- Claim C2, concrete witness: scores 95, 88, 92 average to 275/3, which is
not the integer-division value 91, and earn grade "A". -/
theorem calculate_average_exact_witness :
    calculate_average ⟨some "Alice", some 95, some 88, some 92⟩ =
      some ((275 : ℚ) / 3) ∧
    (275 : ℚ) / 3 ≠ 91 ∧
    assign_grade ((275 : ℚ) / 3) = "A" := by
  refine ⟨?_, by norm_num, ?_⟩
  · have h := calculate_average_exact ⟨some "Alice", some 95, some 88, some 92⟩
      95 88 92 rfl rfl rfl
    simpa using h
  · unfold assign_grade
    norm_num

/-- Claim C6: `calculate_min_max_range` on the three raw subject scores
returns their minimum, their maximum and the range max − min; in particular
scores (70, 85, 60) give min 60, max 85, range 25. -/
theorem calculate_min_max_range_correct :
    (∀ a b c : ℤ, calculate_min_max_range [a, b, c] =
      some (min (min a b) c, max (max a b) c, max (max a b) c - min (min a b) c)) ∧
    calculate_min_max_range [70, 85, 60] = some (60, 85, 25) := by
  constructor
  · intro a b c
    rfl
  · rfl

/-- Claim C3, behaviour of the code at a record missing its math score: the
loop body of `process_student_results` builds the raw score list at line 133
by direct key access, so the absent key raises an uncaught `KeyError` and
the whole call aborts; the record is NOT silently dropped and the following
intact record is never processed. -/
theorem missing_field_aborts_run :
    process_student_results
      [⟨some "X", none, some 88, some 92⟩,
       ⟨some "Y", some 70, some 80, some 90⟩] =
      Except.error "KeyError: math" ∧
    calculate_average ⟨some "X", none, some 88, some 92⟩ = none := by
  exact ⟨rfl, rfl⟩

/-- Evaluation of the loop body on a record with all four keys present: the
shape every per-record claim instantiates. -/
theorem processOne_eval (s : StudentDict) (nm : String) (m sc e : ℤ)
    (hn : s.name = some nm) (hm : s.math = some m)
    (hs : s.science = some sc) (he : s.english = some e) :
    processOne s = Except.ok (some
      { name := nm, math := m, science := sc, english := e,
        average := ((m + sc + e : ℤ) : ℚ) / 3,
        grade := assign_grade (((m + sc + e : ℤ) : ℚ) / 3),
        min_score := min (min m sc) e,
        max_score := max (max m sc) e,
        score_range := max (max m sc) e - min (min m sc) e,
        pass_fail :=
          if 50 ≤ ((m + sc + e : ℤ) : ℚ) / 3 then
            "Congratulations, you passed!" else "Fail" }) := by
  obtain ⟨n?, m?, s?, e?⟩ := s
  simp only at hn hm hs he
  subst hn hm hs he
  rfl

/-- Claim C5: for a record with integer scores, the produced result's
pass_fail field is "Congratulations, you passed!" exactly when the average
is ≥ 50, and is "Fail" exactly otherwise. -/
theorem pass_fail_matches_average (s : StudentDict) (nm : String) (m sc e : ℤ)
    (hn : s.name = some nm) (hm : s.math = some m)
    (hs : s.science = some sc) (he : s.english = some e) :
    ∃ r : StudentResult, processOne s = Except.ok (some r) ∧
      r.average = ((m + sc + e : ℤ) : ℚ) / 3 ∧
      (r.pass_fail = "Congratulations, you passed!" ↔ 50 ≤ r.average) ∧
      (r.pass_fail = "Fail" ↔ r.average < 50) := by
  refine ⟨_, processOne_eval s nm m sc e hn hm hs he, rfl, ?_, ?_⟩ <;>
    simp only [] <;> split_ifs with h
  · simpa using h
  · constructor
    · intro habs
      exact absurd habs (by decide)
    · intro hle
      exact absurd hle h
  · constructor
    · intro habs
      exact absurd habs (by decide)
    · intro hlt
      exact absurd (lt_of_lt_of_le hlt h) (lt_irrefl _)
  · simpa using lt_of_not_le h

/-- Claim C5, witness at the record Alice 95/88/92: the average 275/3 is
≥ 50 and the pass_fail field is the success message. -/
theorem pass_fail_matches_average_witness :
    ∃ r : StudentResult,
      processOne ⟨some "Alice", some 95, some 88, some 92⟩ =
        Except.ok (some r) ∧
      r.average = ((95 + 88 + 92 : ℤ) : ℚ) / 3 ∧
      (r.pass_fail = "Congratulations, you passed!" ↔ 50 ≤ r.average) ∧
      (r.pass_fail = "Fail" ↔ r.average < 50) :=
  pass_fail_matches_average ⟨some "Alice", some 95, some 88, some 92⟩
    "Alice" 95 88 92 rfl rfl rfl rfl

/-- An average is graded "F" exactly when it is below 50. -/
theorem assign_grade_F_iff (score : ℚ) : assign_grade score = "F" ↔ score < 50 := by
  unfold assign_grade
  split_ifs with h1 h2 h3 h4 h5
  · exact ⟨fun h => absurd h (by decide), fun h => absurd h (by linarith)⟩
  · exact ⟨fun h => absurd h (by decide), fun h => absurd h (by linarith)⟩
  · exact ⟨fun h => absurd h (by decide), fun h => absurd h (by linarith)⟩
  · exact ⟨fun h => absurd h (by decide), fun h => absurd h (by linarith)⟩
  · exact ⟨fun h => absurd h (by decide), fun h => absurd h (by linarith)⟩
  · exact ⟨fun _ => lt_of_not_le h5, fun _ => rfl⟩

/-- Claim C10: for a record with integer scores, the produced result's
pass_fail field is "Fail" exactly when its grade field is "F": both are
triggered precisely by an average below 50. -/
theorem fail_iff_grade_F (s : StudentDict) (nm : String) (m sc e : ℤ)
    (hn : s.name = some nm) (hm : s.math = some m)
    (hs : s.science = some sc) (he : s.english = some e) :
    ∃ r : StudentResult, processOne s = Except.ok (some r) ∧
      (r.pass_fail = "Fail" ↔ r.grade = "F") := by
  refine ⟨_, processOne_eval s nm m sc e hn hm hs he, ?_⟩
  simp only []
  rw [assign_grade_F_iff]
  split_ifs with h
  · constructor
    · intro habs
      exact absurd habs (by decide)
    · intro hlt
      exact absurd (lt_of_lt_of_le hlt h) (lt_irrefl _)
  · simpa using lt_of_not_le h

/-- Claim C10, witness at a failing record with scores 10/20/30: the grade
is "F" and the pass_fail field is "Fail" together. -/
theorem fail_iff_grade_F_witness :
    ∃ r : StudentResult,
      processOne ⟨some "Zed", some 10, some 20, some 30⟩ =
        Except.ok (some r) ∧
      (r.pass_fail = "Fail" ↔ r.grade = "F") :=
  fail_iff_grade_F ⟨some "Zed", some 10, some 20, some 30⟩
    "Zed" 10 20 30 rfl rfl rfl rfl

/-- Claim C9: when every incoming record has all four keys, the loop yields
exactly one result per record, in order, with name and the three raw scores
carried over unchanged. -/
theorem process_preserves_records (students : List StudentDict)
    (h : ∀ s ∈ students,
      s.name.isSome ∧ s.math.isSome ∧ s.science.isSome ∧ s.english.isSome) :
    ∃ results : List StudentResult,
      process_student_results students = Except.ok results ∧
      results.map (fun r => (some r.name, some r.math, some r.science, some r.english)) =
        students.map (fun s => (s.name, s.math, s.science, s.english)) := by
  induction students with
  | nil => exact ⟨[], rfl, rfl⟩
  | cons s rest ih =>
    obtain ⟨hn, hm, hs, he⟩ := h s (List.mem_cons_self s rest)
    obtain ⟨nm, hn⟩ := Option.isSome_iff_exists.mp hn
    obtain ⟨m, hm⟩ := Option.isSome_iff_exists.mp hm
    obtain ⟨sc, hs⟩ := Option.isSome_iff_exists.mp hs
    obtain ⟨e, he⟩ := Option.isSome_iff_exists.mp he
    obtain ⟨results, hres, hmap⟩ := ih (fun x hx => h x (List.mem_cons_of_mem s hx))
    refine ⟨({ name := nm, math := m, science := sc, english := e,
               average := ((m + sc + e : ℤ) : ℚ) / 3,
               grade := assign_grade (((m + sc + e : ℤ) : ℚ) / 3),
               min_score := min (min m sc) e,
               max_score := max (max m sc) e,
               score_range := max (max m sc) e - min (min m sc) e,
               pass_fail :=
                 if 50 ≤ ((m + sc + e : ℤ) : ℚ) / 3 then
                   "Congratulations, you passed!" else "Fail" } : StudentResult)
      :: results, ?_, ?_⟩
    · simp only [process_student_results,
        processOne_eval s nm m sc e hn hm hs he, hres, Except.map]
    · simp [hmap, hn, hm, hs, he]

/-- Claim C9, witness on a two-record list with all keys present. -/
theorem process_preserves_records_witness :
    ∃ results : List StudentResult,
      process_student_results
        [⟨some "Ann", some 1, some 2, some 3⟩,
         ⟨some "Ben", some 70, some 85, some 60⟩] = Except.ok results ∧
      results.map (fun r => (some r.name, some r.math, some r.science, some r.english)) =
        ([⟨some "Ann", some 1, some 2, some 3⟩,
          ⟨some "Ben", some 70, some 85, some 60⟩] : List StudentDict).map
          (fun s => (s.name, s.math, s.science, s.english)) :=
  process_preserves_records
    [⟨some "Ann", some 1, some 2, some 3⟩,
     ⟨some "Ben", some 70, some 85, some 60⟩] (by decide)

/-- Reading behaves identically whether or not the rows with fewer than
4 fields are present: they are skipped and never fatal. -/
theorem read_rows_filter (rows : List (List String)) :
    read_rows rows = read_rows (rows.filter (fun r => 4 ≤ r.length)) := by
  induction rows with
  | nil => rfl
  | cons row rest ih =>
    rcases row with _ | ⟨a, _ | ⟨b, _ | ⟨c, _ | ⟨d, t⟩⟩⟩⟩
    · simpa [read_rows, List.filter] using ih
    · simpa [read_rows, List.filter] using ih
    · simpa [read_rows, List.filter] using ih
    · simpa [read_rows, List.filter] using ih
    · rcases hp1 : pyInt b with _ | v1
      · simp [read_rows, List.filter, hp1]
      rcases hp2 : pyInt c with _ | v2
      · simp [read_rows, List.filter, hp1, hp2]
      rcases hp3 : pyInt d with _ | v3
      · simp [read_rows, List.filter, hp1, hp2, hp3]
      simp [read_rows, List.filter, hp1, hp2, hp3, ih]

/-- Claim C7: the whole run on an input file equals the run on the same file
with its short rows (fewer than 4 fields) removed: short rows are skipped
with a diagnostic and all remaining valid rows are still parsed, processed
and written; skipping is never fatal. -/
theorem short_rows_skipped (header : List String) (rows : List (List String)) :
    main_run (header :: rows) =
      main_run (header :: rows.filter (fun r => 4 ≤ r.length)) := by
  simp only [main_run, read_student_data]
  rw [read_rows_filter rows]

/-- Reading errors out whenever some full row has a score field that fails
integer conversion. -/
theorem read_rows_error_of_bad (rows : List (List String)) (r0 r1 r2 r3 : String)
    (t : List String) (hmem : (r0 :: r1 :: r2 :: r3 :: t) ∈ rows)
    (hbad : pyInt r1 = none ∨ pyInt r2 = none ∨ pyInt r3 = none) :
    ∃ e, read_rows rows = Except.error e := by
  induction rows with
  | nil => cases hmem
  | cons row rest ih =>
    rcases List.mem_cons.mp hmem with heq | hmem2
    · subst heq
      rcases hp1 : pyInt r1 with _ | v1
      · exact ⟨"ValueError: invalid int for math", by simp [read_rows, hp1]⟩
      rcases hp2 : pyInt r2 with _ | v2
      · exact ⟨"ValueError: invalid int for science", by simp [read_rows, hp1, hp2]⟩
      rcases hp3 : pyInt r3 with _ | v3
      · exact ⟨"ValueError: invalid int for english", by simp [read_rows, hp1, hp2, hp3]⟩
      rcases hbad with hb | hb | hb <;> simp_all
    · obtain ⟨e, he⟩ := ih hmem2
      rcases row with _ | ⟨a, _ | ⟨b, _ | ⟨c, _ | ⟨d, t2⟩⟩⟩⟩
      · exact ⟨e, by simpa [read_rows] using he⟩
      · exact ⟨e, by simpa [read_rows] using he⟩
      · exact ⟨e, by simpa [read_rows] using he⟩
      · exact ⟨e, by simpa [read_rows] using he⟩
      · rcases hp1 : pyInt b with _ | v1
        · exact ⟨"ValueError: invalid int for math", by simp [read_rows, hp1]⟩
        rcases hp2 : pyInt c with _ | v2
        · exact ⟨"ValueError: invalid int for science", by simp [read_rows, hp1, hp2]⟩
        rcases hp3 : pyInt d with _ | v3
        · exact ⟨"ValueError: invalid int for english", by simp [read_rows, hp1, hp2, hp3]⟩
        exact ⟨e, by simp [read_rows, hp1, hp2, hp3, he, Except.map]⟩

/-- Claim C4: an input file containing a full data row whose math, science
or english field is not an integer literal makes the whole run terminate
fatally (exit status 1) with no output file produced. -/
theorem bad_score_aborts (header row : List String) (rows : List (List String))
    (r0 r1 r2 r3 : String) (t : List String)
    (hmem : row ∈ rows) (hrow : row = r0 :: r1 :: r2 :: r3 :: t)
    (hbad : pyInt r1 = none ∨ pyInt r2 = none ∨ pyInt r3 = none) :
    ∃ e, main_run (header :: rows) = Except.error e := by
  subst hrow
  obtain ⟨e, he⟩ := read_rows_error_of_bad rows r0 r1 r2 r3 t hmem hbad
  exact ⟨e, by simp [main_run, read_student_data, he]⟩

/-- Claim C4, witness: the file with rows Bob abc/88/92 and Alice 95/88/92
aborts the run with no output. -/
theorem bad_score_aborts_witness :
    ∃ e, main_run [["name", "math", "science", "english"],
                   ["Bob", "abc", "88", "92"],
                   ["Alice", "95", "88", "92"]] = Except.error e :=
  bad_score_aborts ["name", "math", "science", "english"]
    ["Bob", "abc", "88", "92"]
    [["Bob", "abc", "88", "92"], ["Alice", "95", "88", "92"]]
    "Bob" "abc" "88" "92" []
    (List.mem_cons_self _ _) rfl (Or.inl (by decide))

/-- Claim C8: an empty result list creates no output file (a diagnostic is
printed instead), and a non-empty one yields exactly one header row plus one
row per result, each row's cells in the fixed column order name, math,
science, english, average, grade, min_score, max_score, score_range,
pass_fail. -/
theorem writer_shape :
    write_results_to_csv [] = none ∧
    ∀ (r : StudentResult) (rs : List StudentResult),
      write_results_to_csv (r :: rs) =
        some (output_header :: (r :: rs).map (fun x =>
          [x.name, toString x.math, toString x.science, toString x.english,
           toString x.average, x.grade, toString x.min_score,
           toString x.max_score, toString x.score_range, x.pass_fail])) := by
  refine ⟨rfl, ?_⟩
  intro r rs
  have hrow : ∀ x : StudentResult,
      dict_row output_header (result_dict x) =
        [x.name, toString x.math, toString x.science, toString x.english,
         toString x.average, x.grade, toString x.min_score,
         toString x.max_score, toString x.score_range, x.pass_fail] :=
    fun x => rfl
  simp only [write_results_to_csv, hrow]

end StudentProcessing
